import Mathlib

/-!
Shallow embedding of the bot-detection and access-control subsystem of the
mc-server-promoter Express server (the security middleware, heuristic scorer,
reputation store, CAPTCHA challenge manager, blacklist guard and the vote
dedup endpoint), together with theorems settling the specification claims.

Conventions: HTTP headers that may be absent are `Option String` (JS
`req.get(h)` returns `undefined` when absent); the code immediately defaults
them with `|| ''`, which we mirror with `Option.getD ""`.  SQL `datetime`
values are modelled as integers (`Int`) compared with `<`/`>`; SQL tables are
modelled as finite maps (functions to `Option`) keyed the way the table's
UNIQUE constraint keys them, or as lists of rows where no uniqueness applies.
-/

namespace McPromoter

/-- Case-sensitive test that `pat` occurs as a contiguous run at the head of
`hay` (character lists). -/
def listStartsWith : List Char → List Char → Bool
  | _, [] => true
  | [], _ :: _ => false
  | a :: as, b :: bs => a == b && listStartsWith as bs

/-- Test that `pat` occurs as a contiguous run anywhere in `hay`. -/
def listContainsSub (pat : List Char) : List Char → Bool
  | [] => listStartsWith [] pat
  | c :: t => listStartsWith (c :: t) pat || listContainsSub pat t

/-- ASCII lower-casing of one character (all header values and patterns the
scorer compares are ASCII, where JS case-insensitive matching is exactly
this mapping). -/
def lowerChar (c : Char) : Char :=
  if 65 ≤ c.toNat ∧ c.toNat ≤ 90 then Char.ofNat (c.toNat + 32) else c

/-- JS `/pat/i.test(hay)` for a literal pattern: case-insensitive substring
containment. -/
def containsCI (hay pat : String) : Bool :=
  listContainsSub (pat.toList.map lowerChar) (hay.toList.map lowerChar)

/-- The narrow view of the Express `req` object that the security subsystem
reads: `req.ip`, the headers fetched with `req.get`, `req.method` and
`req.path`.  Absent headers are `none`. -/
structure Request where
  ip : String
  userAgent : Option String
  accept : Option String
  acceptLanguage : Option String
  acceptEncoding : Option String
  connection : Option String
  referer : Option String
  xRequestedWith : Option String
  method : String
  path : String
  deriving Repr, DecidableEq

/-- The bot patterns tested against the user-agent in `calculateBotScore`
(`/bot/i, /crawler/i, ...` in source order). -/
def botPatterns : List String :=
  ["bot", "crawler", "spider", "scraper", "curl", "wget",
   "python", "java", "apache", "http", "libwww", "perl",
   "php", "ruby", "go-http", "node", "axios", "requests"]

/-- The browser-engine tokens `/Mozilla|Chrome|Safari|Firefox|Edge/i`. -/
def browserPatterns : List String :=
  ["mozilla", "chrome", "safari", "firefox", "edge"]

/-- The `for (const pattern of botPatterns) { if (pattern.test(userAgent))
{ score += 30; break; } }` addend: 30 on the first match only (the loop
`break`s), which equals an `any` test. -/
def botUABonus (r : Request) : Nat :=
  if botPatterns.any (fun p => containsCI (r.userAgent.getD "") p) then 30 else 0

/-- `if (!accept || accept === '*/*') score += 10`. -/
def missAcceptBonus (r : Request) : Nat :=
  if r.accept.getD "" = "" || r.accept.getD "" = "*/*" then 10 else 0

/-- `if (!acceptLanguage) score += 15`. -/
def missLangBonus (r : Request) : Nat :=
  if r.acceptLanguage.getD "" = "" then 15 else 0

/-- `if (!acceptEncoding) score += 10`. -/
def missEncBonus (r : Request) : Nat :=
  if r.acceptEncoding.getD "" = "" then 10 else 0

/-- `if (!userAgent) score += 25`. -/
def missUABonus (r : Request) : Nat :=
  if r.userAgent.getD "" = "" then 25 else 0

/-- `if (userAgent.length < 20) score += 20`. -/
def shortUABonus (r : Request) : Nat :=
  if (r.userAgent.getD "").length < 20 then 20 else 0

/-- `if (!/Mozilla|Chrome|Safari|Firefox|Edge/i.test(userAgent) && userAgent)
score += 15`. -/
def nonBrowserBonus (r : Request) : Nat :=
  if !(browserPatterns.any (fun p => containsCI (r.userAgent.getD "") p))
      && r.userAgent.getD "" ≠ "" then 15 else 0

/-- `if (!req.get('referer') && req.path !== '/') score += 5`. -/
def noRefererBonus (r : Request) : Nat :=
  if r.referer.getD "" = "" && r.path ≠ "/" then 5 else 0

/-- `if (connection.toLowerCase() === 'close') score += 5`. -/
def connCloseBonus (r : Request) : Nat :=
  if (r.connection.getD "").toList.map lowerChar = "close".toList then 5 else 0

/-- `if (!req.get('x-requested-with') && req.method === 'POST') score += 5`. -/
def noXhrBonus (r : Request) : Nat :=
  if r.xRequestedWith.getD "" = "" && r.method = "POST" then 5 else 0

/-- `calculateBotScore(req)`: the additive heuristic scorer,
`Math.min(score, 100)`.  Each addend mirrors one `if (...) score += k` of the
source in order; the conditions are mutually independent, so the sequential
accumulation equals the sum. -/
def calculateBotScore (r : Request) : Nat :=
  min (botUABonus r + missAcceptBonus r + missLangBonus r + missEncBonus r
        + missUABonus r + shortUABonus r + nonBrowserBonus r + noRefererBonus r
        + connCloseBonus r + noXhrBonus r) 100

/-- A row of the `ip_blacklist` table (the columns the guard reads). -/
structure BlacklistRow where
  ip : String
  blockedUntil : Option Int
  deriving Repr, DecidableEq

/-- The SQL predicate `blocked_until IS NULL OR blocked_until > datetime("now")`. -/
def blacklistRowActive (now : Int) (row : BlacklistRow) : Bool :=
  match row.blockedUntil with
  | none => true
  | some t => t > now

/-- `isBlacklisted(ip)`: true iff the `ip_blacklist` table holds a row for
`ip` whose `blocked_until` is NULL or strictly in the future. -/
def isBlacklisted (bl : List BlacklistRow) (now : Int) (ip : String) : Bool :=
  bl.any (fun row => row.ip == ip && blacklistRowActive now row)

/-- Wrap an integer into the signed 32-bit range, as JS `x | 0` does. -/
def toInt32 (n : Int) : Int :=
  let m := n % 4294967296
  if m < 2147483648 then m else m - 4294967296

/-- One iteration of the loop in `simpleHash`:
`h = (h << 5) - h + str.charCodeAt(i); h |= 0`.  `h << 5` coerces to int32
(wrapping multiply by 32); the subtraction and addition are exact in JS
doubles at these magnitudes and `h |= 0` wraps the result back to int32. -/
def simpleHashStep (h : Int) (c : Nat) : Int :=
  toInt32 (toInt32 (h * 32) - h + c)

/-- `simpleHash(str)`: the 32-bit string hash, rendered in decimal with
`String(h)`. -/
def simpleHash (s : String) : String :=
  toString (s.toList.foldl (fun h ch => simpleHashStep h ch.toNat) 0)

/-- `generateDeviceFingerprint(req, deviceInfo)`.  `deviceInfo` comes from the
UAParser library (external to this repository): we take its `browser.name`
and `os.name` results as parameters; `deviceInfo.ua` is the raw user-agent
(`req.get('user-agent') || ''`). -/
def generateDeviceFingerprint (r : Request) (browserName osName : Option String) : String :=
  simpleHash
    ((r.userAgent.getD "") ++ "|" ++
     r.ip ++ "|" ++
     (browserName.getD "") ++ "|" ++
     (osName.getD "") ++ "|" ++
     (r.acceptLanguage.getD ""))

/-- The fingerprint computed inline by `POST /api/servers/:id/vote`:
`simpleHash((req.ip || '') + '|' + (req.get('user-agent') || ''))`. -/
def voterFingerprint (r : Request) : String :=
  simpleHash (r.ip ++ "|" ++ (r.userAgent.getD ""))

/-- A row of the `bot_scores` table (the columns `updateBotScore` writes,
minus the key columns which index the map). -/
structure BotScoreRow where
  fingerprint : String
  botScore : Nat
  requestCount : Nat
  suspiciousPatterns : Nat
  deriving Repr, DecidableEq

/-- The `bot_scores` table, keyed by its UNIQUE `(ip_address, user_agent)`
constraint (`user_agent` is the JS-defaulted string, never NULL). -/
def BotTable : Type := String → String → Option BotScoreRow

/-- `updateBotScore(req)`: computes the request's score, upserts the
reputation row for `(req.ip, userAgent)` via `INSERT OR REPLACE` with
`request_count = COALESCE(prev, 0) + 1` and
`suspicious_patterns = COALESCE(prev, 0) + (botScore > 50 ? 1 : 0)`, and
returns the score.  Returns the updated table and the score. -/
def updateBotScore (tbl : BotTable) (r : Request) (browserName osName : Option String) :
    BotTable × Nat :=
  let ip := r.ip
  let ua := r.userAgent.getD ""
  let fp := generateDeviceFingerprint r browserName osName
  let botScore := calculateBotScore r
  let prev := tbl ip ua
  let rc := (prev.map BotScoreRow.requestCount).getD 0 + 1
  let sp := (prev.map BotScoreRow.suspiciousPatterns).getD 0
              + (if botScore > 50 then 1 else 0)
  (fun i u =>
    if i = ip ∧ u = ua then some ⟨fp, botScore, rc, sp⟩ else tbl i u,
   botScore)

/-- A short-circuit response body sent by the middleware:
`{ error, code, botScore? }` with its HTTP status. -/
structure SecResponse where
  status : Nat
  code : String
  botScore : Option Nat
  deriving Repr, DecidableEq

/-- The outcome of `botDetectionMiddleware`: either a short-circuit rejection
response, or `next()` with the flags the middleware leaves on `req`
(`req.suspiciousActivity`, `req.botScore`). -/
inductive MiddlewareResult where
  | reject (resp : SecResponse)
  | next (suspicious : Bool) (botScore : Nat)
  deriving Repr, DecidableEq

/-- `botDetectionMiddleware(req, res, next)`: blacklist check first
(403 `IP_BLACKLISTED`, reputation untouched); otherwise score and upsert
reputation, then 429 `CAPTCHA_REQUIRED` with the score when `botScore >= 80`,
`req.suspiciousActivity = true` when `60 <= botScore < 80`, plain `next()`
below 60.  Returns the result together with the bot-score table after the
call. -/
def botDetectionMiddleware (bl : List BlacklistRow) (tbl : BotTable) (now : Int)
    (r : Request) (browserName osName : Option String) : MiddlewareResult × BotTable :=
  if isBlacklisted bl now r.ip then
    (.reject ⟨403, "IP_BLACKLISTED", none⟩, tbl)
  else
    let res := updateBotScore tbl r browserName osName
    let botScore := res.2
    if botScore ≥ 80 then
      (.reject ⟨429, "CAPTCHA_REQUIRED", some botScore⟩, res.1)
    else if botScore ≥ 60 then
      (.next true botScore, res.1)
    else
      (.next false botScore, res.1)

/-- The JSON values the verify endpoint's body fields can carry
(`solution: string | number`, absent field = `undefined`). -/
inductive JSValue where
  | undef
  | num (n : Int)
  | str (s : String)
  deriving Repr, DecidableEq

/-- JS truthiness of a body field: `undefined` and `0` and `""` are falsy. -/
def JSValue.truthy : JSValue → Bool
  | .undef => false
  | .num n => n ≠ 0
  | .str s => s ≠ ""

/-- JS `v.toString()` for the values above (integers print in decimal). -/
def JSValue.toStr : JSValue → String
  | .undef => "undefined"
  | .num n => toString n
  | .str s => s

/-- A row of the `captcha_challenges` table (keyed externally by the UNIQUE
`challenge_id`). -/
structure Challenge where
  ip : String
  solution : String
  solved : Bool
  expiresAt : Int
  deriving Repr, DecidableEq

/-- The `captcha_challenges` table keyed by `challenge_id`. -/
def CaptchaTable : Type := String → Option Challenge

/-- `generateSimpleCaptcha()`: the random draws are parameters — `num1` and
`num2` are `Math.floor(Math.random()*20)+1` and `plusOp` is
`Math.random() > 0.5`.  Returns the question text and the integer answer. -/
def generateSimpleCaptcha (num1 num2 : Nat) (plusOp : Bool) : String × Int :=
  let op := if plusOp then "+" else "-"
  let answer : Int := if plusOp then (num1 : Int) + num2 else (num1 : Int) - num2
  (toString num1 ++ " " ++ op ++ " " ++ toString num2, answer)

/-- `createCaptchaChallenge(ip)`: inserts a new unsolved row storing
`answer.toString()` with the 5-minute expiry defaulted by the schema
(`expires_at = now + ttl`; we take the computed expiry as a parameter). -/
def createCaptchaChallenge (tbl : CaptchaTable) (ip : String) (challengeId : String)
    (num1 num2 : Nat) (plusOp : Bool) (expiresAt : Int) : CaptchaTable × String :=
  let g := generateSimpleCaptcha num1 num2 plusOp
  (fun c => if c = challengeId then some ⟨ip, toString g.2, false, expiresAt⟩ else tbl c,
   g.1)

/-- `verifyCaptcha(challengeId, solution)`: looks the id up with
`expires_at > now AND solved = 0` in the WHERE clause; no row → false with no
state change; otherwise compares `challenge.solution === solution.toString()`
and on success sets `solved = 1`.  Returns the table after the call and the
boolean result. -/
def verifyCaptcha (tbl : CaptchaTable) (now : Int) (challengeId : String)
    (solution : JSValue) : CaptchaTable × Bool :=
  match tbl challengeId with
  | none => (tbl, false)
  | some ch =>
    if ch.expiresAt > now ∧ ch.solved = false then
      if ch.solution = solution.toStr then
        (fun c => if c = challengeId then some { ch with solved := true } else tbl c, true)
      else (tbl, false)
    else (tbl, false)

/-- The amnesty UPDATE run on successful verification:
`SET bot_score = CASE WHEN bot_score > 30 THEN bot_score - 30 ELSE 0 END
WHERE ip_address = ?`. -/
def applyAmnesty (tbl : BotTable) (ip : String) : BotTable :=
  fun i u =>
    if i = ip then
      (tbl i u).map (fun row =>
        { row with botScore := if row.botScore > 30 then row.botScore - 30 else 0 })
    else tbl i u

/-- Outcome of `POST /api/security/captcha/verify`: HTTP status, the `valid`
field of the JSON body (absent on the missing-input 400), and both tables
after the call. -/
structure VerifyOutcome where
  status : Nat
  valid : Option Bool
  ctbl : CaptchaTable
  btbl : BotTable

/-- `POST /api/security/captcha/verify`: destructures
`{ challengeId, solution }`, rejects with 400 when either is falsy (before
`verifyCaptcha` is consulted), otherwise verifies and, on success, applies
the amnesty to the requester's `req.ip`. -/
def captchaVerifyEndpoint (ctbl : CaptchaTable) (btbl : BotTable) (now : Int)
    (reqIp : String) (challengeId solution : JSValue) : VerifyOutcome :=
  if ¬ (challengeId.truthy ∧ solution.truthy) then
    ⟨400, none, ctbl, btbl⟩
  else if (verifyCaptcha ctbl now challengeId.toStr solution).2 then
    ⟨200, some true, (verifyCaptcha ctbl now challengeId.toStr solution).1,
     applyAmnesty btbl reqIp⟩
  else
    ⟨400, some false, (verifyCaptcha ctbl now challengeId.toStr solution).1, btbl⟩

/-- State touched by the vote endpoint: the `votes` table (rows
`(server_id, voter_hash, voted_date)`, governed by its UNIQUE constraint on
exactly that triple) and the `votes` counter column of the `servers` table
(`id ↦ votes`, `none` when no such server row exists). -/
structure VoteState where
  votes : List (Int × String × String)
  servers : Int → Option Nat

/-- Outcome of `POST /api/servers/:id/vote` after the middleware: HTTP status
and the new state. -/
structure VoteOutcome where
  status : Nat
  state : VoteState

/-- `POST /api/servers/:id/vote` (body of the handler, after `voteLimiter`
and `botDetectionMiddleware` let the request through): computes
`voterFingerprint`, runs
`INSERT OR IGNORE INTO votes (server_id, voter_hash, voted_date) VALUES (?, ?, today)`
— ignored (`this.changes === 0`) iff the UNIQUE triple already exists, in
which case it answers 429 — and on a fresh insert runs
`UPDATE servers SET votes = votes + 1 WHERE id = ?` and answers 200. -/
def voteEndpoint (st : VoteState) (today : String) (serverId : Int) (r : Request) :
    VoteOutcome :=
  if (serverId, voterFingerprint r, today) ∈ st.votes then
    ⟨429, st⟩
  else
    ⟨200,
     { votes := (serverId, voterFingerprint r, today) :: st.votes,
       servers := fun i =>
         if i = serverId then (st.servers i).map (· + 1) else st.servers i }⟩

/-! ## Concrete sample data used by counterexamples and witnesses -/

/-- A request whose user-agent carries an automation signature
(`Googlebot` matches `/bot/i`) and which has no Accept-Language header, yet
presents normal Accept/Accept-Encoding/Connection/Referer headers. -/
def c5Request : Request :=
  { ip := "203.0.113.7",
    userAgent := some "Mozilla/5.0 (compatible; Googlebot/2.1)",
    accept := some "text/html",
    acceptLanguage := none,
    acceptEncoding := some "gzip",
    connection := some "keep-alive",
    referer := some "https://example.com/",
    xRequestedWith := none,
    method := "GET",
    path := "/" }

/-- A bare curl request: automation user-agent and none of the common
headers, which the scorer rates at the 100 cap. -/
def c1Request : Request :=
  { ip := "1.2.3.4",
    userAgent := some "curl/7.68.0",
    accept := none,
    acceptLanguage := none,
    acceptEncoding := none,
    connection := none,
    referer := none,
    xRequestedWith := none,
    method := "GET",
    path := "/servers" }

/-- A challenge table holding one unexpired, unsolved challenge created for
address `203.0.113.1` with solution `"7"`. -/
def c8Ctbl : CaptchaTable :=
  fun c => if c = "chal-8" then some ⟨"203.0.113.1", "7", false, 100⟩ else none

/-- A reputation table with one row for the challenge's address
`203.0.113.1` and one row for the unrelated address `198.51.100.2`, both
with stored score 90. -/
def c8Btbl : BotTable :=
  fun i u =>
    if i = "203.0.113.1" ∧ u = "ua8" then some ⟨"fa", 90, 3, 2⟩
    else if i = "198.51.100.2" ∧ u = "ua8" then some ⟨"fb", 90, 3, 2⟩
    else none

/-- A vote-style request from address `9.9.9.9` with user-agent
`curl/7.68.0` and Accept-Language `en`. -/
def c9Request : Request :=
  { ip := "9.9.9.9",
    userAgent := some "curl/7.68.0",
    accept := none,
    acceptLanguage := some "en",
    acceptEncoding := none,
    connection := none,
    referer := none,
    xRequestedWith := none,
    method := "POST",
    path := "/api/servers/2/vote" }

/-! ## Theorems -/

/-- The guard's SQL row filter, spelled as a proposition. -/
lemma isBlacklisted_iff (bl : List BlacklistRow) (now : Int) (ip : String) :
    isBlacklisted bl now ip = true ↔
      ∃ row ∈ bl, row.ip = ip ∧
        (row.blockedUntil = none ∨ ∃ t, row.blockedUntil = some t ∧ now < t) := by
  simp only [isBlacklisted, List.any_eq_true, Bool.and_eq_true, beq_iff_eq]
  constructor
  · rintro ⟨row, hmem, hip, hact⟩
    refine ⟨row, hmem, hip, ?_⟩
    unfold blacklistRowActive at hact
    rcases h : row.blockedUntil with _ | t
    · exact Or.inl rfl
    · rw [h] at hact
      exact Or.inr ⟨t, rfl, by exact_mod_cast (by simpa using hact)⟩
  · rintro ⟨row, hmem, hip, hact⟩
    refine ⟨row, hmem, hip, ?_⟩
    unfold blacklistRowActive
    rcases hact with h | ⟨t, h, ht⟩
    · rw [h]
    · rw [h]
      simpa using ht

/-- C1: for a request that reaches the scoring stage (not blacklisted), a
bot score ≥ 80 short-circuits with status 429 and code `CAPTCHA_REQUIRED`
carrying the score; a score in [60, 80) proceeds marked suspicious; a score
below 60 proceeds unmarked. -/
theorem c1_scoring_stage_bands (bl : List BlacklistRow) (tbl : BotTable) (now : Int)
    (r : Request) (bn os : Option String)
    (hbl : isBlacklisted bl now r.ip = false) :
    (80 ≤ calculateBotScore r →
      (botDetectionMiddleware bl tbl now r bn os).1
        = .reject ⟨429, "CAPTCHA_REQUIRED", some (calculateBotScore r)⟩) ∧
    (60 ≤ calculateBotScore r → calculateBotScore r < 80 →
      (botDetectionMiddleware bl tbl now r bn os).1 = .next true (calculateBotScore r)) ∧
    (calculateBotScore r < 60 →
      (botDetectionMiddleware bl tbl now r bn os).1 = .next false (calculateBotScore r)) := by
  have hscore : (updateBotScore tbl r bn os).2 = calculateBotScore r := rfl
  refine ⟨fun h80 => ?_, fun h60 h80 => ?_, fun h60 => ?_⟩
  all_goals
    unfold botDetectionMiddleware
    rw [hbl]
    simp only [Bool.false_eq_true, if_false, hscore]
    split_ifs
    all_goals first | rfl | omega

/-- Witness for `c1_scoring_stage_bands`: the bare curl request `c1Request`
scores 100 and is challenged. -/
theorem c1_scoring_stage_bands_witness :
    (botDetectionMiddleware [] (fun _ _ => none) 0 c1Request none none).1
      = .reject ⟨429, "CAPTCHA_REQUIRED", some (calculateBotScore c1Request)⟩ :=
  (c1_scoring_stage_bands [] (fun _ _ => none) 0 c1Request none none
    (by decide)).1 (by decide)

/-- C2: the pipeline answers 403 `IP_BLACKLISTED` exactly when an active
blacklist row (blockedUntil null or strictly in the future) exists for the
request's address; the check precedes scoring, so no score condition appears
in the characterization, and a row whose blockedUntil is past does not
block. -/
theorem c2_blacklist_guard (bl : List BlacklistRow) (tbl : BotTable) (now : Int)
    (r : Request) (bn os : Option String) :
    (botDetectionMiddleware bl tbl now r bn os).1 = .reject ⟨403, "IP_BLACKLISTED", none⟩ ↔
      ∃ row ∈ bl, row.ip = r.ip ∧
        (row.blockedUntil = none ∨ ∃ t, row.blockedUntil = some t ∧ now < t) := by
  rw [← isBlacklisted_iff]
  unfold botDetectionMiddleware
  rcases h : isBlacklisted bl now r.ip with _ | _
  · simp only [Bool.false_eq_true, if_false]
    constructor
    · intro hres
      exfalso
      split_ifs at hres
      all_goals simp_all
    · intro hres
      exact absurd hres (by simp)
  · simp

/-- C3: `verify(challengeId, solution)` returns true iff an unexpired,
unsolved challenge with that id exists whose stored solution equals the
submitted answer normalized to a string; every false result leaves the table
unchanged; a true result is unrepeatable (any later verify on the same id,
with any answer and at any time, returns false); and an expired challenge
can never verify. -/
theorem c3_verify_at_most_once (tbl : CaptchaTable) (now : Int) (cid : String)
    (sol : JSValue) :
    ((verifyCaptcha tbl now cid sol).2 = true ↔
      ∃ ch, tbl cid = some ch ∧ now < ch.expiresAt ∧ ch.solved = false ∧
        ch.solution = sol.toStr) ∧
    ((verifyCaptcha tbl now cid sol).2 = false → (verifyCaptcha tbl now cid sol).1 = tbl) ∧
    ((verifyCaptcha tbl now cid sol).2 = true →
      ∀ (now2 : Int) (sol2 : JSValue),
        (verifyCaptcha (verifyCaptcha tbl now cid sol).1 now2 cid sol2).2 = false) ∧
    (∀ ch, tbl cid = some ch → ch.expiresAt ≤ now →
      (verifyCaptcha tbl now cid sol).2 = false) := by
  refine ⟨?_, ?_, ?_, ?_⟩
  · unfold verifyCaptcha
    split
    next heq => simp [heq]
    next ch heq =>
      split_ifs with hact hsol
      · simp only [true_iff]
        exact ⟨ch, heq, hact.1, hact.2, hsol⟩
      · simp only [Bool.false_eq_true, false_iff]
        rintro ⟨ch', hch', _, _, hsol'⟩
        rw [heq] at hch'
        injection hch' with hch'
        subst hch'
        exact hsol hsol'
      · simp only [Bool.false_eq_true, false_iff]
        rintro ⟨ch', hch', hexp', hsolved', _⟩
        rw [heq] at hch'
        injection hch' with hch'
        subst hch'
        exact hact ⟨hexp', hsolved'⟩
  · unfold verifyCaptcha
    split
    next => exact fun _ => rfl
    next ch heq =>
      split_ifs with hact hsol
      · intro habs
        exact absurd habs (by simp)
      · exact fun _ => rfl
      · exact fun _ => rfl
  · unfold verifyCaptcha
    split
    next => intro habs; exact absurd habs (by simp)
    next ch heq =>
      split_ifs with hact hsol
      · intro _ now2 sol2
        simp [verifyCaptcha]
      · intro habs; exact absurd habs (by simp)
      · intro habs; exact absurd habs (by simp)
  · intro ch hch hexp
    unfold verifyCaptcha
    split
    next => rfl
    next ch' heq =>
      rw [hch] at heq
      injection heq with heq
      subst heq
      split_ifs with hact hsol
      · exact absurd hact.1 (not_lt.mpr hexp)
      · rfl
      · rfl

/-- C5 counterexample: `c5Request` matches an automation signature and
carries no Accept-Language, yet scores exactly 45 — below the claimed bound
of 55 (only the +30 signature rule and the +15 missing-language rule fire). -/
theorem c5_counterexample :
    botPatterns.any (fun p => containsCI (c5Request.userAgent.getD "") p) = true ∧
    c5Request.acceptLanguage = none ∧
    calculateBotScore c5Request = 45 ∧
    ¬ 55 ≤ calculateBotScore c5Request := by
  decide

/-- C5 amended: for every request with a known automation user-agent and no
Accept-Language header, the heuristic score is at least 45 (30 + 15 +
possibly more), not 55. -/
theorem c5_amended_lower_bound (r : Request)
    (hua : botPatterns.any (fun p => containsCI (r.userAgent.getD "") p) = true)
    (hlang : r.acceptLanguage = none) :
    45 ≤ calculateBotScore r := by
  have h1 : botUABonus r = 30 := by simp [botUABonus, hua]
  have h2 : missLangBonus r = 15 := by simp [missLangBonus, hlang]
  unfold calculateBotScore
  rw [le_min_iff, h1, h2]
  refine ⟨by omega, by norm_num⟩

/-- Witness for `c5_amended_lower_bound` at `c5Request`. -/
theorem c5_amended_lower_bound_witness : 45 ≤ calculateBotScore c5Request :=
  c5_amended_lower_bound c5Request (by decide) rfl

/-- C4: one vote per (server id, voter fingerprint, calendar day).  A first
attempt (no matching window record) answers 200, records the window row and
increments the server's vote counter by exactly one; re-running the endpoint
with the same key on the same day then answers 429 and returns the state
unchanged (no new vote row, no counter change). -/
theorem c4_vote_dedup_window (st : VoteState) (today : String) (serverId : Int)
    (r : Request) (n : Nat)
    (hfresh : (serverId, voterFingerprint r, today) ∉ st.votes)
    (hserver : st.servers serverId = some n) :
    (voteEndpoint st today serverId r).status = 200 ∧
    (voteEndpoint st today serverId r).state.servers serverId = some (n + 1) ∧
    (voteEndpoint st today serverId r).state.votes
      = (serverId, voterFingerprint r, today) :: st.votes ∧
    (voteEndpoint (voteEndpoint st today serverId r).state today serverId r).status = 429 ∧
    (voteEndpoint (voteEndpoint st today serverId r).state today serverId r).state
      = (voteEndpoint st today serverId r).state ∧
    (∀ st2 : VoteState, (serverId, voterFingerprint r, today) ∈ st2.votes →
      voteEndpoint st2 today serverId r = ⟨429, st2⟩) := by
  have h1 : voteEndpoint st today serverId r
      = ⟨200,
         { votes := (serverId, voterFingerprint r, today) :: st.votes,
           servers := fun i =>
             if i = serverId then (st.servers i).map (· + 1) else st.servers i }⟩ := by
    unfold voteEndpoint
    rw [if_neg hfresh]
  have h2 : (voteEndpoint st today serverId r).state.votes
      = (serverId, voterFingerprint r, today) :: st.votes := by rw [h1]
  refine ⟨by rw [h1], ?_, h2, ?_, ?_, ?_⟩
  · rw [h1]
    simp [hserver]
  · rw [h1]
    dsimp only
    unfold voteEndpoint
    rw [if_pos (List.mem_cons_self _ _)]
  · rw [h1]
    dsimp only
    unfold voteEndpoint
    rw [if_pos (List.mem_cons_self _ _)]
  · intro st2 hmem
    unfold voteEndpoint
    rw [if_pos hmem]

/-- Witness for `c4_vote_dedup_window`: an empty vote table and one server
with 5 votes. -/
theorem c4_vote_dedup_window_witness :
    (voteEndpoint ⟨[], fun i => if i = 3 then some 5 else none⟩ "2026-10-11" 3
        { ip := "198.51.100.4", userAgent := some "Mozilla/5.0",
          accept := some "text/html", acceptLanguage := some "en",
          acceptEncoding := some "gzip", connection := none, referer := none,
          xRequestedWith := none, method := "POST", path := "/api/servers/3/vote"
        }).status = 200 := by
  exact (c4_vote_dedup_window ⟨[], fun i => if i = 3 then some 5 else none⟩
    "2026-10-11" 3
    { ip := "198.51.100.4", userAgent := some "Mozilla/5.0",
      accept := some "text/html", acceptLanguage := some "en",
      acceptEncoding := some "gzip", connection := none, referer := none,
      xRequestedWith := none, method := "POST", path := "/api/servers/3/vote" }
    5 (by simp) (by simp)).1

/-- C6: when the verify endpoint succeeds for a request from address A, every
stored reputation row keyed to A has its score replaced by max(score − 30, 0)
— spelled in the code as `CASE WHEN bot_score > 30 THEN bot_score - 30 ELSE 0
END`, which the middle conjunct identifies with the integer max — with its
other fields intact and rows of other addresses untouched; when verification
does not succeed the reputation table is returned unchanged. -/
theorem c6_score_amnesty (ctbl : CaptchaTable) (btbl : BotTable) (now : Int)
    (reqIp : String) (cid sol : JSValue) :
    ((captchaVerifyEndpoint ctbl btbl now reqIp cid sol).valid = some true →
      (∀ u row, btbl reqIp u = some row →
        (captchaVerifyEndpoint ctbl btbl now reqIp cid sol).btbl reqIp u
          = some { row with botScore := if 30 < row.botScore then row.botScore - 30 else 0 }) ∧
      (∀ i u, i ≠ reqIp →
        (captchaVerifyEndpoint ctbl btbl now reqIp cid sol).btbl i u = btbl i u)) ∧
    (∀ s : Nat, ((if 30 < s then s - 30 else 0 : Nat) : Int) = max ((s : Int) - 30) 0) ∧
    ((captchaVerifyEndpoint ctbl btbl now reqIp cid sol).valid ≠ some true →
      (captchaVerifyEndpoint ctbl btbl now reqIp cid sol).btbl = btbl) := by
  refine ⟨?_, ?_, ?_⟩
  · intro hvalid
    unfold captchaVerifyEndpoint at hvalid ⊢
    split_ifs at hvalid ⊢ with h1 h2
    · refine ⟨?_, ?_⟩
      · intro u row hrow
        simp [applyAmnesty, hrow]
      · intro i u hne
        simp only [applyAmnesty, if_neg hne]
    all_goals exact absurd hvalid (by simp)
  · intro s
    split_ifs with h30
    · omega
    · omega
  · intro hinvalid
    unfold captchaVerifyEndpoint at hinvalid ⊢
    split_ifs at hinvalid ⊢ with h1 h2
    · exact absurd rfl hinvalid
    · rfl
    · rfl

/-- Witness for `c6_score_amnesty`: a solvable challenge verified from the
requester's own address reduces that address's stored score from 90 to 60. -/
theorem c6_score_amnesty_witness :
    ((captchaVerifyEndpoint
        (fun c => if c = "chal-6" then some ⟨"198.51.100.6", "12", false, 300⟩ else none)
        (fun i u => if i = "198.51.100.6" ∧ u = "ua6" then some ⟨"f6", 90, 4, 2⟩ else none)
        0 "198.51.100.6" (.str "chal-6") (.str "12")).valid = some true) ∧
    ((captchaVerifyEndpoint
        (fun c => if c = "chal-6" then some ⟨"198.51.100.6", "12", false, 300⟩ else none)
        (fun i u => if i = "198.51.100.6" ∧ u = "ua6" then some ⟨"f6", 90, 4, 2⟩ else none)
        0 "198.51.100.6" (.str "chal-6") (.str "12")).btbl "198.51.100.6" "ua6"
      = some ⟨"f6", 60, 4, 2⟩) := by
  refine ⟨by decide, ?_⟩
  have h := ((c6_score_amnesty
      (fun c => if c = "chal-6" then some ⟨"198.51.100.6", "12", false, 300⟩ else none)
      (fun i u => if i = "198.51.100.6" ∧ u = "ua6" then some ⟨"f6", 90, 4, 2⟩ else none)
      0 "198.51.100.6" (.str "chal-6") (.str "12")).1 (by decide)).1 "ua6"
      ⟨"f6", 90, 4, 2⟩ (by decide)
  simpa using h

/-- C7: `updateBotScore` upserts the (address, user-agent) reputation row:
request count becomes previous-count-or-0 plus 1 (so 1 on first
observation), the suspicious-pattern count grows by 1 exactly when the new
score exceeds 50, and the stored score is replaced by the latest observed
score regardless of the previous value. -/
theorem c7_reputation_upsert (tbl : BotTable) (r : Request) (bn os : Option String) :
    (updateBotScore tbl r bn os).1 r.ip (r.userAgent.getD "")
      = some
        { fingerprint := generateDeviceFingerprint r bn os,
          botScore := calculateBotScore r,
          requestCount :=
            ((tbl r.ip (r.userAgent.getD "")).map BotScoreRow.requestCount).getD 0 + 1,
          suspiciousPatterns :=
            ((tbl r.ip (r.userAgent.getD "")).map BotScoreRow.suspiciousPatterns).getD 0
              + (if 50 < calculateBotScore r then 1 else 0) } := by
  simp [updateBotScore]

/-- Helper: a found, unexpired, unsolved challenge with the right answer
verifies and is marked solved. -/
lemma verifyCaptcha_eq_of_found (tbl : CaptchaTable) (now : Int) (cid : String)
    (ch : Challenge) (sol : JSValue) (hch : tbl cid = some ch)
    (hexp : now < ch.expiresAt) (hunsolved : ch.solved = false)
    (hsol : ch.solution = sol.toStr) :
    verifyCaptcha tbl now cid sol
      = (fun c => if c = cid then some { ch with solved := true } else tbl c, true) := by
  unfold verifyCaptcha
  split
  next heq => rw [heq] at hch; cases hch
  next ch' heq =>
    rw [hch] at heq
    injection heq with heq
    subst heq
    rw [if_pos ⟨hexp, hunsolved⟩, if_pos hsol]

/-- Helper: a solved challenge never verifies again, for any answer and any
time. -/
lemma verifyCaptcha_false_of_solved (tbl : CaptchaTable) (now : Int) (cid : String)
    (ch : Challenge) (sol : JSValue) (hch : tbl cid = some ch)
    (hsolved : ch.solved = true) :
    (verifyCaptcha tbl now cid sol).2 = false := by
  unfold verifyCaptcha
  split
  next => rfl
  next ch' heq =>
    rw [hch] at heq
    injection heq with heq
    subst heq
    rw [if_neg (by rintro ⟨_, hfalse⟩; rw [hsolved] at hfalse; cases hfalse)]

/-- Helper: the verify endpoint on truthy inputs and a successful
verification answers 200/valid with the solved table and the amnesty
applied to the requester's address. -/
lemma captchaVerifyEndpoint_success_eq (ctbl : CaptchaTable) (btbl : BotTable)
    (now : Int) (reqIp : String) (cid sol : JSValue)
    (hcid : cid.truthy = true) (hsol : sol.truthy = true)
    (hver : (verifyCaptcha ctbl now cid.toStr sol).2 = true) :
    captchaVerifyEndpoint ctbl btbl now reqIp cid sol
      = ⟨200, some true, (verifyCaptcha ctbl now cid.toStr sol).1,
         applyAmnesty btbl reqIp⟩ := by
  unfold captchaVerifyEndpoint
  rw [if_neg (by simp [hcid, hsol]), if_pos hver]

/-- C8 counterexample: the challenge in `c8Ctbl` was created for address
`203.0.113.1`, yet a request from the different address `198.51.100.2`
verifies it successfully — and the amnesty lands on the verifier
`198.51.100.2` (90 → 60) while the creation address's row stays at 90. -/
theorem c8_counterexample :
    (c8Ctbl "chal-8").map Challenge.ip = some "203.0.113.1" ∧
    (captchaVerifyEndpoint c8Ctbl c8Btbl 0 "198.51.100.2"
        (.str "chal-8") (.str "7")).valid = some true ∧
    (captchaVerifyEndpoint c8Ctbl c8Btbl 0 "198.51.100.2"
        (.str "chal-8") (.str "7")).btbl "203.0.113.1" "ua8" = some ⟨"fa", 90, 3, 2⟩ ∧
    (captchaVerifyEndpoint c8Ctbl c8Btbl 0 "198.51.100.2"
        (.str "chal-8") (.str "7")).btbl "198.51.100.2" "ua8" = some ⟨"fb", 60, 3, 2⟩ := by
  decide

/-- C8 amended: challenge verification does not check the requesting
address — a request from any address (in particular one different from the
challenge's recorded creation address) verifies it if the answer is right;
the solved flag then forbids every further successful verification of that
id, from any address at any time, so a challenge is consumed at most once
globally; and the amnesty applies to the verifying request's address, with
every other address's reputation rows untouched. -/
theorem c8_amended_any_address_verifies_once (ctbl : CaptchaTable) (btbl : BotTable)
    (now : Int) (reqIp cid : String) (ch : Challenge) (sol : JSValue)
    (hch : ctbl cid = some ch) (hexp : now < ch.expiresAt)
    (hunsolved : ch.solved = false) (hsol : ch.solution = sol.toStr)
    (hcid : cid ≠ "") (hsolT : sol.truthy = true) :
    (captchaVerifyEndpoint ctbl btbl now reqIp (.str cid) sol).valid = some true ∧
    (∀ (btbl2 : BotTable) (now2 : Int) (reqIp2 : String) (sol2 : JSValue),
      (captchaVerifyEndpoint
          (captchaVerifyEndpoint ctbl btbl now reqIp (.str cid) sol).ctbl
          btbl2 now2 reqIp2 (.str cid) sol2).valid ≠ some true) ∧
    (∀ i u, i ≠ reqIp →
      (captchaVerifyEndpoint ctbl btbl now reqIp (.str cid) sol).btbl i u = btbl i u) := by
  have hcidT : (JSValue.str cid).truthy = true := by simp [JSValue.truthy, hcid]
  have hv := verifyCaptcha_eq_of_found ctbl now cid ch sol hch hexp hunsolved hsol
  have hv2 : (verifyCaptcha ctbl now (JSValue.str cid).toStr sol).2 = true := by
    rw [show (JSValue.str cid).toStr = cid from rfl, hv]
  have hout := captchaVerifyEndpoint_success_eq ctbl btbl now reqIp (.str cid) sol
    hcidT hsolT hv2
  refine ⟨by rw [hout], ?_, ?_⟩
  · intro btbl2 now2 reqIp2 sol2
    have hsolvedrow : (verifyCaptcha ctbl now (JSValue.str cid).toStr sol).1 cid
        = some { ch with solved := true } := by
      rw [show (JSValue.str cid).toStr = cid from rfl, hv]
      simp
    have hfail := verifyCaptcha_false_of_solved
      ((verifyCaptcha ctbl now (JSValue.str cid).toStr sol).1) now2 cid
      { ch with solved := true } sol2 hsolvedrow rfl
    rw [hout]
    dsimp only
    unfold captchaVerifyEndpoint
    split_ifs with h1 h2
    · rw [show (JSValue.str cid).toStr = cid from rfl] at h2
      rw [show (JSValue.str cid).toStr = cid from rfl] at hfail
      rw [h2] at hfail
      cases hfail
    · simp
    · simp
  · intro i u hne
    rw [hout]
    simp only [applyAmnesty, if_neg hne]

/-- Witness for `c8_amended_any_address_verifies_once` at the concrete
`c8Ctbl`/`c8Btbl` state, verified from address `198.51.100.2`. -/
theorem c8_amended_any_address_verifies_once_witness :
    (captchaVerifyEndpoint c8Ctbl c8Btbl 0 "198.51.100.2"
        (.str "chal-8") (.str "7")).valid = some true :=
  (c8_amended_any_address_verifies_once c8Ctbl c8Btbl 0 "198.51.100.2"
    "chal-8" ⟨"203.0.113.1", "7", false, 100⟩ (.str "7")
    rfl (by decide) rfl rfl (by decide) (by decide)).1

set_option maxRecDepth 8000 in
/-- C9 counterexample: for `c9Request` the vote endpoint's dedup key
`simpleHash(ip + '|' + user-agent)` hashes to `844585532`, while the device
fingerprint (user-agent, ip, browser name, OS name, accept-language — here
with the UAParser results for a curl user-agent, which names neither a
browser nor an OS) hashes to `-1959203095`: the two identities differ. -/
theorem c9_counterexample :
    voterFingerprint c9Request = "844585532" ∧
    generateDeviceFingerprint c9Request none none = "-1959203095" ∧
    voterFingerprint c9Request ≠ generateDeviceFingerprint c9Request none none := by
  decide

/-- C9 amended: the vote dedup key is not the device fingerprint — it is
`simpleHash` of address and user-agent only (sharing just the hash function
with the Fingerprint Extractor): the endpoint denies with 429 exactly when a
window record for `(server id, simpleHash(ip + '|' + ua), today)` exists. -/
theorem c9_amended_vote_key (st : VoteState) (today : String) (serverId : Int)
    (r : Request) :
    (voteEndpoint st today serverId r).status = 429 ↔
      (serverId, simpleHash (r.ip ++ "|" ++ (r.userAgent.getD "")), today) ∈ st.votes := by
  unfold voteEndpoint voterFingerprint
  split_ifs with h
  · exact ⟨fun _ => h, fun _ => rfl⟩
  · constructor
    · intro habs
      exact absurd habs (by norm_num)
    · intro hmem
      exact absurd hmem h

/-- C10: `generateSimpleCaptcha` can produce the integer solution 0 (the
subtraction operator with equal operands, stored as the string "0"), but the
verify endpoint's truthiness check on `solution` treats the number 0 as
missing and answers 400 untouched — before the Challenge Manager runs — so
the challenge is only solvable with the answer submitted as the string
"0". -/
theorem c10_zero_solution (ctbl : CaptchaTable) (btbl : BotTable) (now : Int)
    (reqIp cid : String) (ch : Challenge)
    (hcid : cid ≠ "") (hch : ctbl cid = some ch) (hsol : ch.solution = "0")
    (hunsolved : ch.solved = false) (hexp : now < ch.expiresAt) :
    (generateSimpleCaptcha 5 5 false).2 = 0 ∧
    toString (generateSimpleCaptcha 5 5 false).2 = "0" ∧
    captchaVerifyEndpoint ctbl btbl now reqIp (.str cid) (.num 0)
      = ⟨400, none, ctbl, btbl⟩ ∧
    (captchaVerifyEndpoint ctbl btbl now reqIp (.str cid) (.str "0")).valid
      = some true := by
  refine ⟨by decide, by decide, ?_, ?_⟩
  · unfold captchaVerifyEndpoint
    rw [if_pos (by simp [JSValue.truthy])]
  · have hv := verifyCaptcha_eq_of_found ctbl now cid ch (.str "0") hch hexp hunsolved
      (by rw [hsol]; rfl)
    have hv2 : (verifyCaptcha ctbl now (JSValue.str cid).toStr (.str "0")).2 = true := by
      rw [show (JSValue.str cid).toStr = cid from rfl, hv]
    rw [captchaVerifyEndpoint_success_eq ctbl btbl now reqIp (.str cid) (.str "0")
      (by simp [JSValue.truthy, hcid]) (by decide) hv2]

/-- Witness for `c10_zero_solution`: a stored challenge with solution "0" is
rejected with 400 when the answer comes as the number 0 and accepted when it
comes as the string "0". -/
theorem c10_zero_solution_witness :
    captchaVerifyEndpoint
        (fun c => if c = "chal-10" then some ⟨"203.0.113.9", "0", false, 77⟩ else none)
        (fun _ _ => none) 0 "203.0.113.9" (.str "chal-10") (.num 0)
      = ⟨400, none,
         (fun c => if c = "chal-10" then some ⟨"203.0.113.9", "0", false, 77⟩ else none),
         (fun _ _ => none)⟩ ∧
    (captchaVerifyEndpoint
        (fun c => if c = "chal-10" then some ⟨"203.0.113.9", "0", false, 77⟩ else none)
        (fun _ _ => none) 0 "203.0.113.9" (.str "chal-10") (.str "0")).valid
      = some true := by
  have h := c10_zero_solution
    (fun c => if c = "chal-10" then some ⟨"203.0.113.9", "0", false, 77⟩ else none)
    (fun _ _ => none) 0 "203.0.113.9" "chal-10" ⟨"203.0.113.9", "0", false, 77⟩
    (by decide) rfl rfl rfl (by decide)
  exact ⟨h.2.2.1, h.2.2.2⟩

end McPromoter
